import Mathlib

/-!
Shallow embedding of the crypto-ingestion ETL pipeline
(`src/core/checkpoints.py`, `src/core/database.py`, `src/ingestion/…`,
`src/etl_pipeline.py`) and proofs of the specification claims.

Modelling conventions:
* the relational store is a `PipelineState` of in-memory tables (lists of
  rows); SQLAlchemy commits are the successful returns of the loader
  functions, rollbacks keep the previous table value;
* timestamps (`datetime.utcnow()`) are `Nat` values supplied by the
  environment, durations (`time.time() - start_time`) and float columns
  are `ℚ` values (exact for the doubling/capping arithmetic the code does);
* Python exceptions are `Except String`; a function that catches every
  exception is total;
* the outcome of each HTTP attempt made by `_make_request`, the
  readability of the CSV file, per-item pydantic validation failures and
  storage write failures are injected through an environment record, since
  they originate outside the embedded code.
-/

/-- One row of `unified_crypto_data` (`UnifiedCryptoData` in
`src/core/database.py`), which has the same payload fields as
`UnifiedCryptoDataSchema` in `src/schemas/unified.py`.  The surrogate `id`
column is omitted; the natural key is (coin_id, source, ingested_at). -/
structure URow where
  coin_id : String
  name : String
  symbol : String
  price_usd : Option ℚ
  market_cap : Option ℚ
  volume_24h : Option ℚ
  source : String
  ingested_at : Nat
  deriving Repr, DecidableEq

/-- `RawCoinPaprikaSchema` from `src/schemas/raw_data.py`. -/
structure RawCoinPaprikaSchema where
  coin_id : String
  name : Option String
  symbol : Option String
  rank : Option Int
  price_usd : Option ℚ
  market_cap : Option ℚ
  volume_24h : Option ℚ
  circulating_supply : Option ℚ
  total_supply : Option ℚ
  max_supply : Option ℚ
  percent_change_24h : Option ℚ
  raw_json : Option String
  ingested_at : Nat
  deriving Repr, DecidableEq

/-- `RawCoinGeckoSchema` from `src/schemas/raw_data.py`. -/
structure RawCoinGeckoSchema where
  coin_id : String
  name : Option String
  symbol : Option String
  current_price : Option ℚ
  market_cap : Option ℚ
  total_volume : Option ℚ
  price_change_24h : Option ℚ
  price_change_percentage_24h : Option ℚ
  market_cap_rank : Option Int
  raw_json : Option String
  ingested_at : Nat
  deriving Repr, DecidableEq

/-- `RawCSVSchema` from `src/schemas/raw_data.py`. -/
structure RawCSVSchema where
  coin_id : String
  name : String
  symbol : String
  price_usd : Option ℚ
  market_cap : Option ℚ
  volume_24h : Option ℚ
  ingested_at : Nat
  deriving Repr, DecidableEq

/-- One row of the `checkpoints` table (`Checkpoint` in
`src/core/database.py`); `duration_seconds` and `error_message` are
nullable columns. -/
structure Checkpoint where
  source : String
  last_run_timestamp : Nat
  status : String
  records_processed : Nat
  duration_seconds : Option ℚ
  error_message : Option String
  deriving Repr, DecidableEq

namespace CheckpointManager

/-- `CheckpointManager.get_checkpoint`: `first()` row whose `source`
matches. -/
def get_checkpoint (cps : List Checkpoint) (source : String) : Option Checkpoint :=
  cps.find? (fun c => c.source == source)

/-- `CheckpointManager.is_source_running`: a checkpoint exists for the
source and its status is "running". -/
def is_source_running (cps : List Checkpoint) (source : String) : Bool :=
  match get_checkpoint cps source with
  | some c => c.status == "running"
  | none => false

/-- `CheckpointManager.start_run`: if a checkpoint row for the source
exists, set its status to "running", refresh its timestamp and clear its
error message in place; otherwise add a fresh row (status "running",
records_processed 0, the nullable columns unset). -/
def start_run (now : Nat) (source : String) : List Checkpoint → List Checkpoint
  | [] => [⟨source, now, "running", 0, none, none⟩]
  | c :: rest =>
    if c.source == source then
      { c with status := "running", last_run_timestamp := now, error_message := none } :: rest
    else
      c :: start_run now source rest

/-- `CheckpointManager.complete_run`: if no checkpoint row exists the
inconsistency is only logged and nothing is written; otherwise the row's
status becomes "success" or "failure" and the processed count, duration
and error message are stored. -/
def complete_run (source : String) (records_processed : Nat) (duration_seconds : ℚ)
    (success : Bool) (error_message : Option String) :
    List Checkpoint → List Checkpoint
  | [] => []
  | c :: rest =>
    if c.source == source then
      { c with
        status := if success then "success" else "failure",
        records_processed := records_processed,
        duration_seconds := some duration_seconds,
        error_message := error_message } :: rest
    else
      c :: complete_run source records_processed duration_seconds success error_message rest

end CheckpointManager

namespace DataTransformer

/-- `DataTransformer.transform_coinpaprika` from
`src/ingestion/transformer.py`: field renaming plus `name or ""` /
`symbol or ""` defaulting and stamping of the "coinpaprika" source tag. -/
def transform_coinpaprika (r : RawCoinPaprikaSchema) : URow :=
  { coin_id := r.coin_id
    name := r.name.getD ""
    symbol := r.symbol.getD ""
    price_usd := r.price_usd
    market_cap := r.market_cap
    volume_24h := r.volume_24h
    source := "coinpaprika"
    ingested_at := r.ingested_at }

/-- `DataTransformer.transform_coingecko`: `current_price` maps to
`price_usd`, `total_volume` maps to `volume_24h`. -/
def transform_coingecko (r : RawCoinGeckoSchema) : URow :=
  { coin_id := r.coin_id
    name := r.name.getD ""
    symbol := r.symbol.getD ""
    price_usd := r.current_price
    market_cap := r.market_cap
    volume_24h := r.total_volume
    source := "coingecko"
    ingested_at := r.ingested_at }

/-- `DataTransformer.transform_csv`: direct field passthrough with the
"csv" source tag. -/
def transform_csv (r : RawCSVSchema) : URow :=
  { coin_id := r.coin_id
    name := r.name
    symbol := r.symbol
    price_usd := r.price_usd
    market_cap := r.market_cap
    volume_24h := r.volume_24h
    source := "csv"
    ingested_at := r.ingested_at }

/-- The batch loop shared by `transform_batch_coinpaprika` /
`transform_batch_coingecko` / `transform_batch_csv`: apply the per-item
mapping to each element of the list; an item whose mapping raises is
logged and skipped, the successes are appended in input order.  The
per-item mapping is `Except`-valued because in the source the mapped
call (pydantic model construction) can raise. -/
def transformBatch (f : α → Except String URow) : List α → List URow
  | [] => []
  | a :: rest =>
    match f a with
    | .ok u => u :: transformBatch f rest
    | .error _ => transformBatch f rest

/-- Per-item mapping as the batch loop sees it: the injected environment
`fails` records for which raw records pydantic validation raises inside
the otherwise total field mapping `g`. -/
def itemMapping (g : α → URow) (fails : α → Option String) (a : α) : Except String URow :=
  match fails a with
  | some e => .error e
  | none => .ok (g a)

/-- `DataTransformer.transform_batch_coinpaprika`. -/
def transform_batch_coinpaprika (fails : RawCoinPaprikaSchema → Option String)
    (l : List RawCoinPaprikaSchema) : List URow :=
  transformBatch (itemMapping transform_coinpaprika fails) l

/-- `DataTransformer.transform_batch_coingecko`. -/
def transform_batch_coingecko (fails : RawCoinGeckoSchema → Option String)
    (l : List RawCoinGeckoSchema) : List URow :=
  transformBatch (itemMapping transform_coingecko fails) l

/-- `DataTransformer.transform_batch_csv`. -/
def transform_batch_csv (fails : RawCSVSchema → Option String)
    (l : List RawCSVSchema) : List URow :=
  transformBatch (itemMapping transform_csv fails) l

end DataTransformer

namespace DataLoader

/-- Natural-key equality test on `unified_crypto_data` rows: the unique
constraint `uq_coin_source_time` is on (coin_id, source, ingested_at). -/
def sameKey (a b : URow) : Bool :=
  a.coin_id == b.coin_id && a.source == b.source && a.ingested_at == b.ingested_at

/-- The `DO UPDATE SET` clause of the statement built in
`DataLoader.load_unified_data`: overwrite the conflicting row's non-key
fields (name, symbol, price_usd, market_cap, volume_24h) with the
incoming (`excluded`) values. -/
def overwriteWith (r d : URow) : URow :=
  { r with
    name := d.name, symbol := d.symbol, price_usd := d.price_usd,
    market_cap := d.market_cap, volume_24h := d.volume_24h }

/-- The `INSERT … ON CONFLICT (coin_id, source, ingested_at) DO UPDATE`
statement built in `DataLoader.load_unified_data` for one record: append
the row if no stored row has its natural key; otherwise overwrite the
non-key fields of the conflicting row (unique by the `uq_coin_source_time`
constraint) in place. -/
def upsertUnified : List URow → URow → List URow
  | [], d => [d]
  | r :: rest, d =>
    if sameKey r d then overwriteWith r d :: rest
    else r :: upsertUnified rest d

/-- The per-record upsert loop of `load_unified_data`, before commit. -/
def upsertAll (tbl : List URow) (ds : List URow) : List URow :=
  ds.foldl upsertUnified tbl

/-- `DataLoader.load_unified_data`: empty input returns 0 without touching
the store; otherwise every record is upserted and one commit lands them
all, the return value being `len(data_list)`; a storage failure (injected
as `fail`) rolls back every write of the call and re-raises. -/
def load_unified_data (fail : Option String) (tbl : List URow) (ds : List URow) :
    Except String (List URow × Nat) :=
  if ds.isEmpty then .ok (tbl, 0)
  else
    match fail with
    | some e => .error e
    | none => .ok (upsertAll tbl ds, ds.length)

/-- The shared shape of `load_raw_coinpaprika` / `load_raw_coingecko` /
`load_raw_csv`: empty input returns 0 without touching the store;
otherwise one atomic bulk append of all records, returning their count; a
storage failure (injected as `fail`) rolls back and re-raises. -/
def load_raw (fail : Option String) (tbl : List ρ) (ds : List ρ) :
    Except String (List ρ × Nat) :=
  if ds.isEmpty then .ok (tbl, 0)
  else
    match fail with
    | some e => .error e
    | none => .ok (tbl ++ ds, ds.length)

end DataLoader

/-- Outcome of one HTTP attempt inside `_make_request`
(`src/ingestion/sources/coinpaprika.py` / `coingecko.py`): a 200 response
whose JSON body is a list of items (each item parsing either to a raw
schema value or raising), a 429 rate-limit response, or a
`requests.RequestException` (network failure or `raise_for_status`). -/
inductive AttemptOutcome (ρ : Type) where
  | ok (items : List (Except String ρ))
  | rateLimited
  | reqError (msg : String)

/-- The retry configuration used by `_make_request`
(`settings.max_retries`, `settings.initial_retry_delay`,
`settings.max_retry_delay` in `src/core/config.py`). -/
structure RetryConfig where
  maxRetries : Nat
  initialDelay : ℚ
  maxDelay : ℚ
  deriving Repr, DecidableEq

/-- `delay = min(delay * 2, settings.max_retry_delay)` after every retried
attempt. -/
def nextDelay (cfg : RetryConfig) (d : ℚ) : ℚ :=
  min (d * 2) cfg.maxDelay

/-- The retry loop of `_make_request`, from iteration `i` with `fuel`
iterations left and current backoff `delay`.  A 429 sleeps `delay`,
doubles it (capped) and consumes the iteration; a request exception on
the last iteration re-raises, otherwise it takes the same sleep-and-retry
path; running out of iterations raises "Max retries exceeded".  The
second component records the successive backoff sleeps. -/
def makeRequestGo (att : Nat → AttemptOutcome ρ) (cfg : RetryConfig) :
    Nat → Nat → ℚ → Except String (List (Except String ρ)) × List ℚ
  | _, 0, _ => (.error "Max retries exceeded", [])
  | i, fuel + 1, delay =>
    match att i with
    | .ok items => (.ok items, [])
    | .rateLimited =>
      let r := makeRequestGo att cfg (i + 1) fuel (nextDelay cfg delay)
      (r.1, delay :: r.2)
    | .reqError e =>
      if fuel = 0 then (.error e, [])
      else
        let r := makeRequestGo att cfg (i + 1) fuel (nextDelay cfg delay)
        (r.1, delay :: r.2)

/-- `_make_request`: up to `max_retries` attempts starting from the
initial backoff delay. -/
def makeRequest (att : Nat → AttemptOutcome ρ) (cfg : RetryConfig) :
    Except String (List (Except String ρ)) × List ℚ :=
  makeRequestGo att cfg 0 cfg.maxRetries cfg.initialDelay

/-- The per-item parse loop shared by `fetch_top_coins` and
`fetch_markets_data`: an item that fails to parse is logged and skipped. -/
def collectParsed : List (Except String ρ) → List ρ
  | [] => []
  | .ok r :: rest => r :: collectParsed rest
  | .error _ :: rest => collectParsed rest

/-- `CoinPaprikaSource.fetch_top_coins`: call `_make_request`, parse each
ticker, skipping malformed ones; the surrounding `try/except` catches any
exception (in particular the terminal retry-exhaustion failure raised by
`_make_request`) and returns the empty list. -/
def fetch_top_coins (att : Nat → AttemptOutcome RawCoinPaprikaSchema)
    (cfg : RetryConfig) : List RawCoinPaprikaSchema :=
  match (makeRequest att cfg).1 with
  | .error _ => []
  | .ok items => collectParsed items

/-- `CoinGeckoSource.fetch_markets_data`: same structure as
`fetch_top_coins`, including the catch-all that turns any fetch failure
into an empty list. -/
def fetch_markets_data (att : Nat → AttemptOutcome RawCoinGeckoSchema)
    (cfg : RetryConfig) : List RawCoinGeckoSchema :=
  match (makeRequest att cfg).1 with
  | .error _ => []
  | .ok items => collectParsed items

/-- The CSV file as `CSVSource.fetch_data` (`src/ingestion/sources/csv.py`)
can observe it: absent, unreadable, or a sequence of rows each of which
parses to a `RawCSVSchema` or raises. -/
inductive CsvFile where
  | missing
  | unreadable (msg : String)
  | rows (items : List (Except String RawCSVSchema))

/-- `CSVSource.fetch_data`: a missing file or a read failure yields the
empty list (no exception ever escapes); in a readable file each row is
parsed, malformed rows are logged and skipped. -/
def fetch_data : CsvFile → List RawCSVSchema
  | .missing => []
  | .unreadable _ => []
  | .rows items => collectParsed items

/-- The database state the pipeline mutates: the three raw tables, the
unified table and the checkpoints table. -/
structure PipelineState where
  checkpoints : List Checkpoint
  raw_coinpaprika : List RawCoinPaprikaSchema
  raw_coingecko : List RawCoinGeckoSchema
  raw_csv : List RawCSVSchema
  unified : List URow
  deriving Repr, DecidableEq

/-- Environment of one `ETLPipeline.run_coinpaprika` run: the HTTP attempt
outcomes and retry configuration behind `fetch_top_coins`, the injected
pydantic failures of the per-item transform, the injected storage
failures of the two loader calls, and the wall-clock values the run
reads. -/
structure PaprikaEnv where
  att : Nat → AttemptOutcome RawCoinPaprikaSchema
  cfg : RetryConfig
  transformFails : RawCoinPaprikaSchema → Option String
  loadRawFail : Option String
  loadUnifiedFail : Option String
  now : Nat
  duration : ℚ

/-- Environment of one `ETLPipeline.run_coingecko` run. -/
structure GeckoEnv where
  att : Nat → AttemptOutcome RawCoinGeckoSchema
  cfg : RetryConfig
  transformFails : RawCoinGeckoSchema → Option String
  loadRawFail : Option String
  loadUnifiedFail : Option String
  now : Nat
  duration : ℚ

/-- Environment of one `ETLPipeline.run_csv` run. -/
structure CsvEnv where
  file : CsvFile
  transformFails : RawCSVSchema → Option String
  loadRawFail : Option String
  loadUnifiedFail : Option String
  now : Nat
  duration : ℚ

namespace ETLPipeline

open CheckpointManager DataTransformer DataLoader

/-- `ETLPipeline.run_coinpaprika` (`src/etl_pipeline.py`): guard on a
"running" checkpoint, start the checkpoint, fetch, treat an empty fetch
as success with 0 records, load raw, transform, load unified, complete
the checkpoint with the unified count; any exception raised by a step is
caught by the enclosing `try/except` and recorded as a checkpoint
failure with 0 records, leaving the states the failed step rolled back
unchanged and the commits of earlier steps in place. -/
def run_coinpaprika (env : PaprikaEnv) (st : PipelineState) : PipelineState :=
  if is_source_running st.checkpoints "coinpaprika" then st
  else
    let st1 := { st with checkpoints := start_run env.now "coinpaprika" st.checkpoints }
    let raw_data := fetch_top_coins env.att env.cfg
    if raw_data.isEmpty then
      { st1 with checkpoints := complete_run "coinpaprika" 0 env.duration true none st1.checkpoints }
    else
      match load_raw env.loadRawFail st1.raw_coinpaprika raw_data with
      | .error e =>
        { st1 with checkpoints := complete_run "coinpaprika" 0 env.duration false (some e) st1.checkpoints }
      | .ok (rawTbl, _) =>
        let st2 := { st1 with raw_coinpaprika := rawTbl }
        let unified_data := transform_batch_coinpaprika env.transformFails raw_data
        match load_unified_data env.loadUnifiedFail st2.unified unified_data with
        | .error e =>
          { st2 with checkpoints := complete_run "coinpaprika" 0 env.duration false (some e) st2.checkpoints }
        | .ok (uniTbl, unified_count) =>
          { st2 with
            unified := uniTbl,
            checkpoints := complete_run "coinpaprika" unified_count env.duration true none st2.checkpoints }

/-- `ETLPipeline.run_coingecko`: same structure as `run_coinpaprika` over
the CoinGecko source, raw table and transform. -/
def run_coingecko (env : GeckoEnv) (st : PipelineState) : PipelineState :=
  if is_source_running st.checkpoints "coingecko" then st
  else
    let st1 := { st with checkpoints := start_run env.now "coingecko" st.checkpoints }
    let raw_data := fetch_markets_data env.att env.cfg
    if raw_data.isEmpty then
      { st1 with checkpoints := complete_run "coingecko" 0 env.duration true none st1.checkpoints }
    else
      match load_raw env.loadRawFail st1.raw_coingecko raw_data with
      | .error e =>
        { st1 with checkpoints := complete_run "coingecko" 0 env.duration false (some e) st1.checkpoints }
      | .ok (rawTbl, _) =>
        let st2 := { st1 with raw_coingecko := rawTbl }
        let unified_data := transform_batch_coingecko env.transformFails raw_data
        match load_unified_data env.loadUnifiedFail st2.unified unified_data with
        | .error e =>
          { st2 with checkpoints := complete_run "coingecko" 0 env.duration false (some e) st2.checkpoints }
        | .ok (uniTbl, unified_count) =>
          { st2 with
            unified := uniTbl,
            checkpoints := complete_run "coingecko" unified_count env.duration true none st2.checkpoints }

/-- `ETLPipeline.run_csv`: same structure as `run_coinpaprika` over the
CSV source, raw table and transform. -/
def run_csv (env : CsvEnv) (st : PipelineState) : PipelineState :=
  if is_source_running st.checkpoints "csv" then st
  else
    let st1 := { st with checkpoints := start_run env.now "csv" st.checkpoints }
    let raw_data := fetch_data env.file
    if raw_data.isEmpty then
      { st1 with checkpoints := complete_run "csv" 0 env.duration true none st1.checkpoints }
    else
      match load_raw env.loadRawFail st1.raw_csv raw_data with
      | .error e =>
        { st1 with checkpoints := complete_run "csv" 0 env.duration false (some e) st1.checkpoints }
      | .ok (rawTbl, _) =>
        let st2 := { st1 with raw_csv := rawTbl }
        let unified_data := transform_batch_csv env.transformFails raw_data
        match load_unified_data env.loadUnifiedFail st2.unified unified_data with
        | .error e =>
          { st2 with checkpoints := complete_run "csv" 0 env.duration false (some e) st2.checkpoints }
        | .ok (uniTbl, unified_count) =>
          { st2 with
            unified := uniTbl,
            checkpoints := complete_run "csv" unified_count env.duration true none st2.checkpoints }

/-- Environment of `ETLPipeline.run_all`: one per-source environment for
each configured source. -/
structure AllEnv where
  paprika : PaprikaEnv
  gecko : GeckoEnv
  csv : CsvEnv

/-- `ETLPipeline.run_all`: run coinpaprika, then coingecko, then csv,
sequentially. -/
def run_all (env : AllEnv) (st : PipelineState) : PipelineState :=
  run_csv env.csv (run_coingecko env.gecko (run_coinpaprika env.paprika st))

end ETLPipeline

/-- The database invariant enforced by the unique constraint on
`checkpoints.source`: no two checkpoint rows share a source. -/
def uniqSources (cps : List Checkpoint) : Prop :=
  cps.Pairwise (fun a b => a.source ≠ b.source)

/-- Number of stored unified rows sharing the natural key of `d`. -/
def keyCount (tbl : List URow) (d : URow) : Nat :=
  (tbl.filter (fun r => DataLoader.sameKey r d)).length

/-- The empty database. -/
def st0 : PipelineState := ⟨[], [], [], [], []⟩

/-- The default retry configuration (`max_retries` 3,
`initial_retry_delay` 1.0, `max_retry_delay` 60.0). -/
def cfg3 : RetryConfig := ⟨3, 1, 60⟩

/-- Sample CoinPaprika ticker records. -/
def pr1 : RawCoinPaprikaSchema :=
  ⟨"btc-bitcoin", some "Bitcoin", some "BTC", some 1, some 45000, some 850,
    some 25, none, none, none, none, none, 100⟩

def pr2 : RawCoinPaprikaSchema :=
  ⟨"bad-coin", none, none, none, none, none, none, none, none, none, none, none, 100⟩

def pr3 : RawCoinPaprikaSchema :=
  ⟨"eth-ethereum", some "Ethereum", some "ETH", some 2, some 2500, some 300,
    some 15, none, none, none, none, none, 100⟩

/-- Sample CoinGecko market record. -/
def gr1 : RawCoinGeckoSchema :=
  ⟨"bitcoin", some "Bitcoin", some "btc", some 45000, some 850, some 25,
    none, none, some 1, none, 100⟩

/-- Sample CSV row. -/
def cr1 : RawCSVSchema := ⟨"btc-bitcoin", "Bitcoin", "BTC", some 45000, some 850, some 25, 100⟩

/-- An environment where every HTTP attempt fails with a network error,
so every retry attempt of `_make_request` is exhausted. -/
def c2att : Nat → AttemptOutcome RawCoinPaprikaSchema := fun _ => .reqError "boom"

def c2env : PaprikaEnv := ⟨c2att, cfg3, fun _ => none, none, none, 0, 1⟩

/-- The same all-failures attempts for the CoinGecko fetcher. -/
def c2gatt : Nat → AttemptOutcome RawCoinGeckoSchema := fun _ => .reqError "boom"

def c2genv : GeckoEnv := ⟨c2gatt, cfg3, fun _ => none, none, none, 0, 1⟩

/-- A CSV environment whose file read fails. -/
def c2cenv : CsvEnv := ⟨.unreadable "io error", fun _ => none, none, none, 0, 1⟩

/-- An environment fetching three records, the middle of which fails
pydantic validation during its per-item transform. -/
def c6fails : RawCoinPaprikaSchema → Option String :=
  fun r => if r.coin_id == "bad-coin" then some "validation error" else none

def c6att : Nat → AttemptOutcome RawCoinPaprikaSchema :=
  fun _ => .ok [.ok pr1, .ok pr2, .ok pr3]

def c6env : PaprikaEnv := ⟨c6att, cfg3, c6fails, none, none, 50, 2⟩

/-- Environments whose fetch returns zero records. -/
def c7penv : PaprikaEnv := ⟨fun _ => .ok [], cfg3, fun _ => none, none, none, 10, 1⟩

def c7genv : GeckoEnv := ⟨fun _ => .ok [], cfg3, fun _ => none, none, none, 10, 1⟩

def c7cenv : CsvEnv := ⟨.missing, fun _ => none, none, none, 10, 1⟩

/-- An environment where the canonical (unified) load fails after the raw
batch was committed. -/
def c9env : PaprikaEnv :=
  ⟨fun _ => .ok [.ok pr1], cfg3, fun _ => none, none, some "db down", 20, 3⟩

/-- Environments where every source's raw load hits a storage failure. -/
def c3penv : PaprikaEnv :=
  ⟨fun _ => .ok [.ok pr1], cfg3, fun _ => none, some "paprika db down", none, 30, 1⟩

def c3genv : GeckoEnv :=
  ⟨fun _ => .ok [.ok gr1], cfg3, fun _ => none, some "gecko db down", none, 31, 1⟩

def c3cenv : CsvEnv :=
  ⟨.rows [.ok cr1], fun _ => none, some "csv db down", none, 32, 1⟩

def c3env : ETLPipeline.AllEnv := ⟨c3penv, c3genv, c3cenv⟩

/-- Attempts that are all rate-limited (429), so the retry loop records
its whole backoff schedule. -/
def c8att : Nat → AttemptOutcome Unit := fun _ => .rateLimited

/-- A retry configuration with enough attempts for the backoff schedule
to reach and stay at the 60-second cap. -/
def cfg9 : RetryConfig := ⟨9, 1, 60⟩

namespace CheckpointManager

theorem get_checkpoint_nil (s : String) : get_checkpoint [] s = none := rfl

theorem get_checkpoint_cons (c : Checkpoint) (rest : List Checkpoint) (s : String) :
    get_checkpoint (c :: rest) s = if c.source == s then some c else get_checkpoint rest s := by
  cases h : c.source == s <;> simp [get_checkpoint, List.find?_cons, h]

theorem get_start_run_of_none (now : Nat) (s : String) (cps : List Checkpoint)
    (h : get_checkpoint cps s = none) :
    get_checkpoint (start_run now s cps) s = some ⟨s, now, "running", 0, none, none⟩ := by
  induction cps with
  | nil => simp [start_run, get_checkpoint_cons]
  | cons c rest ih =>
    rw [get_checkpoint_cons] at h
    by_cases hc : c.source = s
    · simp [hc] at h
    · simp only [start_run, beq_iff_eq, hc, if_false, get_checkpoint_cons] at *
      exact ih (by simpa [hc] using h)

theorem get_start_run_of_some (now : Nat) (s : String) (cps : List Checkpoint)
    (c : Checkpoint) (h : get_checkpoint cps s = some c) :
    get_checkpoint (start_run now s cps) s =
      some { c with status := "running", last_run_timestamp := now, error_message := none } := by
  induction cps with
  | nil => simp [get_checkpoint] at h
  | cons a rest ih =>
    rw [get_checkpoint_cons] at h
    by_cases ha : a.source = s
    · simp only [ha, beq_self_eq_true, if_true, Option.some_inj] at h
      subst h
      simp [start_run, ha, get_checkpoint_cons]
    · simp only [beq_iff_eq, ha, if_false] at h
      simp [start_run, ha, get_checkpoint_cons, ih h]

theorem get_start_run_other (now : Nat) (s s' : String) (cps : List Checkpoint)
    (h : s' ≠ s) :
    get_checkpoint (start_run now s cps) s' = get_checkpoint cps s' := by
  induction cps with
  | nil => simp [start_run, get_checkpoint_cons, get_checkpoint_nil, Ne.symm h]
  | cons a rest ih =>
    by_cases ha : a.source = s
    · simp [start_run, ha, get_checkpoint_cons, Ne.symm h]
    · simp [start_run, ha, get_checkpoint_cons, ih]

theorem complete_run_of_none (s : String) (p : Nat) (d : ℚ) (b : Bool)
    (e : Option String) (cps : List Checkpoint)
    (h : get_checkpoint cps s = none) :
    complete_run s p d b e cps = cps := by
  induction cps with
  | nil => rfl
  | cons a rest ih =>
    rw [get_checkpoint_cons] at h
    by_cases ha : a.source = s
    · simp [ha] at h
    · simp only [beq_iff_eq, ha, if_false] at h
      simp [complete_run, ha, ih h]

theorem get_complete_run_of_some (s : String) (p : Nat) (d : ℚ) (b : Bool)
    (e : Option String) (cps : List Checkpoint) (c : Checkpoint)
    (h : get_checkpoint cps s = some c) :
    get_checkpoint (complete_run s p d b e cps) s =
      some { c with
        status := if b then "success" else "failure",
        records_processed := p,
        duration_seconds := some d,
        error_message := e } := by
  induction cps with
  | nil => simp [get_checkpoint] at h
  | cons a rest ih =>
    rw [get_checkpoint_cons] at h
    by_cases ha : a.source = s
    · simp only [ha, beq_self_eq_true, if_true, Option.some_inj] at h
      subst h
      simp [complete_run, ha, get_checkpoint_cons]
    · simp only [beq_iff_eq, ha, if_false] at h
      simp [complete_run, ha, get_checkpoint_cons, ih h]

theorem get_complete_run_other (s s' : String) (p : Nat) (d : ℚ) (b : Bool)
    (e : Option String) (cps : List Checkpoint) (h : s' ≠ s) :
    get_checkpoint (complete_run s p d b e cps) s' = get_checkpoint cps s' := by
  induction cps with
  | nil => rfl
  | cons a rest ih =>
    by_cases ha : a.source = s
    · simp [complete_run, ha, get_checkpoint_cons, Ne.symm h]
    · simp [complete_run, ha, get_checkpoint_cons, ih]

end CheckpointManager

open CheckpointManager DataTransformer DataLoader ETLPipeline

/-- C5: after `start_run("x")`, `complete_run("x", p, d, success=true)`
sets the checkpoint for "x" to status "success" with
`records_processed = p`, `duration_seconds = d` and a null error message;
with `success=false` and an error it sets status "failure" with that
error message; and when no checkpoint exists for the source,
`complete_run` only logs the inconsistency and writes nothing. -/
theorem C5_complete_run_transitions (s : String) (cps : List Checkpoint)
    (now p p' : Nat) (d d' : ℚ) (e : String) :
    ((get_checkpoint (complete_run s p d true none (start_run now s cps)) s).map
        (fun c => (c.status, c.records_processed, c.duration_seconds, c.error_message)) =
      some ("success", p, some d, none))
    ∧ ((get_checkpoint (complete_run s p' d' false (some e) (start_run now s cps)) s).map
        (fun c => (c.status, c.records_processed, c.duration_seconds, c.error_message)) =
      some ("failure", p', some d', some e))
    ∧ (∀ (cps' : List Checkpoint) (q : Nat) (dq : ℚ) (b : Bool) (e' : Option String),
        get_checkpoint cps' s = none → complete_run s q dq b e' cps' = cps') := by
  have hrun : ∃ c1 : Checkpoint, get_checkpoint (start_run now s cps) s = some c1 := by
    cases h : get_checkpoint cps s with
    | none => exact ⟨_, get_start_run_of_none now s cps h⟩
    | some c => exact ⟨_, get_start_run_of_some now s cps c h⟩
  obtain ⟨c1, hc1⟩ := hrun
  refine ⟨?_, ?_, ?_⟩
  · rw [get_complete_run_of_some s p d true none _ c1 hc1]
    rfl
  · rw [get_complete_run_of_some s p' d' false (some e) _ c1 hc1]
    rfl
  · intro cps' q dq b e' h
    exact complete_run_of_none s q dq b e' cps' h

/-- C5 witness: the success and failure transitions and the
missing-checkpoint no-op, at source "x" starting from the empty
checkpoints table. -/
theorem C5_complete_run_transitions_witness :
    ((get_checkpoint (complete_run "x" 5 2 true none (start_run 7 "x" [])) "x").map
        (fun c => (c.status, c.records_processed, c.duration_seconds, c.error_message)) =
      some ("success", 5, some 2, none))
    ∧ ((get_checkpoint (complete_run "x" 0 1 false (some "timeout") (start_run 7 "x" [])) "x").map
        (fun c => (c.status, c.records_processed, c.duration_seconds, c.error_message)) =
      some ("failure", 0, some 1, some "timeout"))
    ∧ (∀ (cps' : List Checkpoint) (q : Nat) (dq : ℚ) (b : Bool) (e' : Option String),
        get_checkpoint cps' "x" = none → complete_run "x" q dq b e' cps' = cps') :=
  C5_complete_run_transitions "x" [] 7 5 0 2 1 "timeout"

/-- C10: `start_run` on a source that already has a checkpoint changes
only its status (to "running"), its timestamp (to the fresh one) and its
error message (to null); `records_processed` and `duration_seconds` keep
the previous run's values, and checkpoints of other sources are
untouched. -/
theorem C10_start_run_keeps_prior_counts (now : Nat) (s : String)
    (cps : List Checkpoint) (c : Checkpoint)
    (h : get_checkpoint cps s = some c) :
    (get_checkpoint (start_run now s cps) s =
      some { c with status := "running", last_run_timestamp := now, error_message := none })
    ∧ ((get_checkpoint (start_run now s cps) s).map
        (fun c' => (c'.records_processed, c'.duration_seconds)) =
      some (c.records_processed, c.duration_seconds))
    ∧ (∀ s' : String, s' ≠ s →
        get_checkpoint (start_run now s cps) s' = get_checkpoint cps s') := by
  refine ⟨get_start_run_of_some now s cps c h, ?_, ?_⟩
  · rw [get_start_run_of_some now s cps c h]
    rfl
  · intro s' hs'
    exact get_start_run_other now s s' cps hs'

/-- C10 witness: a checkpoint for "x" holding the previous run's counts
(records_processed 5, duration 2) still reports them after `start_run`,
while status, timestamp and error message are reset. -/
theorem C10_start_run_keeps_prior_counts_witness :
    (get_checkpoint (start_run 9 "x" [⟨"x", 3, "success", 5, some 2, some "old"⟩]) "x" =
      some ⟨"x", 9, "running", 5, some 2, none⟩)
    ∧ ((get_checkpoint (start_run 9 "x" [⟨"x", 3, "success", 5, some 2, some "old"⟩]) "x").map
        (fun c' => (c'.records_processed, c'.duration_seconds)) = some (5, some 2))
    ∧ (∀ s' : String, s' ≠ "x" →
        get_checkpoint (start_run 9 "x" [⟨"x", 3, "success", 5, some 2, some "old"⟩]) s' =
          get_checkpoint [⟨"x", 3, "success", 5, some 2, some "old"⟩] s') :=
  C10_start_run_keeps_prior_counts 9 "x" [⟨"x", 3, "success", 5, some 2, some "old"⟩]
    ⟨"x", 3, "success", 5, some 2, some "old"⟩ (by rfl)

/-- C4: under the unique-source constraint, `is_source_running(s)` is true
iff a checkpoint row for `s` exists with status "running"; and a run
whose guard sees a "running" checkpoint returns immediately, leaving the
whole database state (checkpoints and all record tables) unchanged, for
each of the three per-source runs. -/
theorem C4_running_guard_noop (cps : List Checkpoint) (s : String)
    (hu : uniqSources cps) :
    (is_source_running cps s = true ↔ ∃ c ∈ cps, c.source = s ∧ c.status = "running")
    ∧ (∀ (env : PaprikaEnv) (st : PipelineState),
        is_source_running st.checkpoints "coinpaprika" = true → run_coinpaprika env st = st)
    ∧ (∀ (env : GeckoEnv) (st : PipelineState),
        is_source_running st.checkpoints "coingecko" = true → run_coingecko env st = st)
    ∧ (∀ (env : CsvEnv) (st : PipelineState),
        is_source_running st.checkpoints "csv" = true → run_csv env st = st) := by
  refine ⟨?_, ?_, ?_, ?_⟩
  · induction cps with
    | nil => simp [is_source_running, get_checkpoint_nil]
    | cons a rest ih =>
      have ha : ∀ b ∈ rest, a.source ≠ b.source := fun b hb =>
        List.rel_of_pairwise_cons hu hb
      have hrest : uniqSources rest := List.Pairwise.of_cons hu
      by_cases h : a.source = s
      · simp only [is_source_running, get_checkpoint_cons, h, beq_self_eq_true, if_true]
        constructor
        · intro hst
          exact ⟨a, List.mem_cons_self a rest, h, by simpa using hst⟩
        · rintro ⟨c, hc, hcs, hcr⟩
          rcases List.mem_cons.mp hc with rfl | hc'
          · simpa using hcr
          · exact absurd (hcs.trans h.symm) (Ne.symm (ha c hc'))
      · simp only [is_source_running, get_checkpoint_cons, beq_iff_eq, h, if_false]
        rw [show (match get_checkpoint rest s with
              | some c => c.status == "running"
              | none => false) = is_source_running rest s from rfl]
        rw [ih hrest]
        constructor
        · rintro ⟨c, hc, hcs, hcr⟩
          exact ⟨c, List.mem_cons_of_mem a hc, hcs, hcr⟩
        · rintro ⟨c, hc, hcs, hcr⟩
          rcases List.mem_cons.mp hc with rfl | hc'
          · exact absurd hcs h
          · exact ⟨c, hc', hcs, hcr⟩
  · intro env st h
    simp [run_coinpaprika, h]
  · intro env st h
    simp [run_coingecko, h]
  · intro env st h
    simp [run_csv, h]

/-- C4 witness: the guard characterisation and the no-op behaviour at a
one-row checkpoints table whose "x" checkpoint is running. -/
theorem C4_running_guard_noop_witness :
    (is_source_running [⟨"x", 1, "running", 0, none, none⟩] "x" = true ↔
      ∃ c ∈ [(⟨"x", 1, "running", 0, none, none⟩ : Checkpoint)],
        c.source = "x" ∧ c.status = "running")
    ∧ (∀ (env : PaprikaEnv) (st : PipelineState),
        is_source_running st.checkpoints "coinpaprika" = true → run_coinpaprika env st = st)
    ∧ (∀ (env : GeckoEnv) (st : PipelineState),
        is_source_running st.checkpoints "coingecko" = true → run_coingecko env st = st)
    ∧ (∀ (env : CsvEnv) (st : PipelineState),
        is_source_running st.checkpoints "csv" = true → run_csv env st = st) :=
  C4_running_guard_noop [⟨"x", 1, "running", 0, none, none⟩] "x"
    (List.pairwise_singleton _ _)

theorem sameKey_overwriteWith (r d : URow) :
    sameKey (overwriteWith r d) d = sameKey r d := by
  simp [sameKey, overwriteWith]

theorem overwriteWith_eq (r d : URow) (h : sameKey r d = true) :
    overwriteWith r d = d := by
  cases r; cases d
  simp only [sameKey, Bool.and_eq_true, beq_iff_eq] at h
  obtain ⟨⟨h1, h2⟩, h3⟩ := h
  simp_all [overwriteWith]

theorem sameKey_self (d : URow) : sameKey d d = true := by
  simp [sameKey]

theorem keyCount_nil (d : URow) : keyCount [] d = 0 := rfl

theorem keyCount_cons_pos (r d : URow) (rest : List URow) (hr : sameKey r d = true) :
    keyCount (r :: rest) d = keyCount rest d + 1 := by
  simp [keyCount, List.filter_cons, hr]

theorem keyCount_cons_neg (r d : URow) (rest : List URow) (hr : sameKey r d = false) :
    keyCount (r :: rest) d = keyCount rest d := by
  simp [keyCount, List.filter_cons, hr]

theorem upsertUnified_cons_pos (r d : URow) (rest : List URow) (hr : sameKey r d = true) :
    upsertUnified (r :: rest) d = overwriteWith r d :: rest := by
  simp [upsertUnified, hr]

theorem upsertUnified_cons_neg (r d : URow) (rest : List URow) (hr : sameKey r d = false) :
    upsertUnified (r :: rest) d = r :: upsertUnified rest d := by
  simp [upsertUnified, hr]

theorem keyCount_eq_zero_iff (tbl : List URow) (d : URow) :
    keyCount tbl d = 0 ↔ ∀ r ∈ tbl, sameKey r d = false := by
  simp only [keyCount, List.length_eq_zero, List.filter_eq_nil_iff]
  constructor
  · intro h r hr
    simpa using h r hr
  · intro h r hr
    simp [h r hr]

theorem keyCount_upsertUnified (tbl : List URow) (d : URow)
    (h : keyCount tbl d ≤ 1) : keyCount (upsertUnified tbl d) d = 1 := by
  induction tbl with
  | nil =>
    show keyCount [d] d = 1
    rw [keyCount_cons_pos d d [] (sameKey_self d), keyCount_nil]
  | cons r rest ih =>
    cases hr : sameKey r d with
    | true =>
      have h0 : keyCount rest d = 0 := by
        rw [keyCount_cons_pos r d rest hr] at h; omega
      rw [upsertUnified_cons_pos r d rest hr,
        keyCount_cons_pos _ d rest ((sameKey_overwriteWith r d).trans hr), h0]
    | false =>
      have h' : keyCount rest d ≤ 1 := by
        rw [keyCount_cons_neg r d rest hr] at h; exact h
      rw [upsertUnified_cons_neg r d rest hr, keyCount_cons_neg r d _ hr]
      exact ih h'

theorem mem_upsertUnified_sameKey (tbl : List URow) (d : URow)
    (h : keyCount tbl d ≤ 1) :
    ∀ r ∈ upsertUnified tbl d, sameKey r d = true → r = d := by
  induction tbl with
  | nil =>
    intro r hr _
    simpa [upsertUnified] using hr
  | cons a rest ih =>
    intro r hr hk
    cases ha : sameKey a d with
    | true =>
      have h0 : ∀ x ∈ rest, sameKey x d = false := by
        refine (keyCount_eq_zero_iff rest d).mp ?_
        rw [keyCount_cons_pos a d rest ha] at h; omega
      rw [upsertUnified_cons_pos a d rest ha] at hr
      rcases List.mem_cons.mp hr with rfl | hr'
      · exact overwriteWith_eq a d ha
      · exact absurd hk (by simp [h0 r hr'])
    | false =>
      have h' : keyCount rest d ≤ 1 := by
        rw [keyCount_cons_neg a d rest ha] at h; exact h
      rw [upsertUnified_cons_neg a d rest ha] at hr
      rcases List.mem_cons.mp hr with rfl | hr'
      · exact absurd hk (by simp [ha])
      · exact ih h' r hr' hk

theorem filter_not_upsertUnified (tbl : List URow) (d : URow) :
    (upsertUnified tbl d).filter (fun r => !sameKey r d) =
      tbl.filter (fun r => !sameKey r d) := by
  induction tbl with
  | nil => simp [upsertUnified, sameKey_self]
  | cons a rest ih =>
    cases ha : sameKey a d with
    | true =>
      rw [upsertUnified_cons_pos a d rest ha]
      simp [List.filter_cons, sameKey_overwriteWith, ha]
    | false =>
      rw [upsertUnified_cons_neg a d rest ha]
      simp [List.filter_cons, ha, ih]

theorem upsertUnified_of_absent (tbl : List URow) (d : URow)
    (h : ∀ r ∈ tbl, sameKey r d = false) :
    upsertUnified tbl d = tbl ++ [d] := by
  induction tbl with
  | nil => rfl
  | cons a rest ih =>
    have ha := h a (List.mem_cons_self a rest)
    simp [upsertUnified, ha, ih fun r hr => h r (List.mem_cons_of_mem a hr)]

/-- C1: `load_unified_data` upserts each record on the natural key
(coin_id, source, ingested_at): if no stored row has the key, the row is
appended; if one exists, its non-key fields (name, symbol, price_usd,
market_cap, volume_24h) are overwritten with the incoming values, so a
key-unique store keeps exactly one row per key, and rows with other keys
are untouched.  In particular, loading (coin_id "btc", source "csv",
ingested_at 1000) with price 100 and then again with price 110 leaves
exactly one stored row for that key, holding price 110. -/
theorem C1_load_unified_upsert (tbl : List URow) (d : URow)
    (h : keyCount tbl d ≤ 1) :
    keyCount (upsertUnified tbl d) d = 1
    ∧ (∀ r ∈ upsertUnified tbl d, sameKey r d = true → r = d)
    ∧ ((upsertUnified tbl d).filter (fun r => !sameKey r d) =
        tbl.filter (fun r => !sameKey r d))
    ∧ ((∀ r ∈ tbl, sameKey r d = false) → upsertUnified tbl d = tbl ++ [d])
    ∧ load_unified_data none []
        [⟨"btc", "Bitcoin", "BTC", some 100, none, none, "csv", 1000⟩] =
        .ok ([⟨"btc", "Bitcoin", "BTC", some 100, none, none, "csv", 1000⟩], 1)
    ∧ load_unified_data none
        [⟨"btc", "Bitcoin", "BTC", some 100, none, none, "csv", 1000⟩]
        [⟨"btc", "Bitcoin", "BTC", some 110, none, none, "csv", 1000⟩] =
        .ok ([⟨"btc", "Bitcoin", "BTC", some 110, none, none, "csv", 1000⟩], 1) :=
  ⟨keyCount_upsertUnified tbl d h, mem_upsertUnified_sameKey tbl d h,
    filter_not_upsertUnified tbl d, upsertUnified_of_absent tbl d,
    by rfl, by rfl⟩

/-- C1 witness: the upsert properties at the one-row "btc" store and an
incoming record with the same key and price 110. -/
theorem C1_load_unified_upsert_witness :
    keyCount (upsertUnified [⟨"btc", "Bitcoin", "BTC", some 100, none, none, "csv", 1000⟩]
        ⟨"btc", "Bitcoin", "BTC", some 110, none, none, "csv", 1000⟩)
        ⟨"btc", "Bitcoin", "BTC", some 110, none, none, "csv", 1000⟩ = 1
    ∧ (∀ r ∈ upsertUnified [⟨"btc", "Bitcoin", "BTC", some 100, none, none, "csv", 1000⟩]
        ⟨"btc", "Bitcoin", "BTC", some 110, none, none, "csv", 1000⟩,
        sameKey r ⟨"btc", "Bitcoin", "BTC", some 110, none, none, "csv", 1000⟩ = true →
        r = ⟨"btc", "Bitcoin", "BTC", some 110, none, none, "csv", 1000⟩)
    ∧ ((upsertUnified [⟨"btc", "Bitcoin", "BTC", some 100, none, none, "csv", 1000⟩]
        ⟨"btc", "Bitcoin", "BTC", some 110, none, none, "csv", 1000⟩).filter
          (fun r => !sameKey r ⟨"btc", "Bitcoin", "BTC", some 110, none, none, "csv", 1000⟩) =
        [⟨"btc", "Bitcoin", "BTC", some 100, none, none, "csv", 1000⟩].filter
          (fun r => !sameKey r ⟨"btc", "Bitcoin", "BTC", some 110, none, none, "csv", 1000⟩))
    ∧ ((∀ r ∈ [(⟨"btc", "Bitcoin", "BTC", some 100, none, none, "csv", 1000⟩ : URow)],
        sameKey r ⟨"btc", "Bitcoin", "BTC", some 110, none, none, "csv", 1000⟩ = false) →
        upsertUnified [⟨"btc", "Bitcoin", "BTC", some 100, none, none, "csv", 1000⟩]
          ⟨"btc", "Bitcoin", "BTC", some 110, none, none, "csv", 1000⟩ =
        [⟨"btc", "Bitcoin", "BTC", some 100, none, none, "csv", 1000⟩] ++
          [⟨"btc", "Bitcoin", "BTC", some 110, none, none, "csv", 1000⟩])
    ∧ load_unified_data none []
        [⟨"btc", "Bitcoin", "BTC", some 100, none, none, "csv", 1000⟩] =
        .ok ([⟨"btc", "Bitcoin", "BTC", some 100, none, none, "csv", 1000⟩], 1)
    ∧ load_unified_data none
        [⟨"btc", "Bitcoin", "BTC", some 100, none, none, "csv", 1000⟩]
        [⟨"btc", "Bitcoin", "BTC", some 110, none, none, "csv", 1000⟩] =
        .ok ([⟨"btc", "Bitcoin", "BTC", some 110, none, none, "csv", 1000⟩], 1) :=
  C1_load_unified_upsert [⟨"btc", "Bitcoin", "BTC", some 100, none, none, "csv", 1000⟩]
    ⟨"btc", "Bitcoin", "BTC", some 110, none, none, "csv", 1000⟩ (by decide)

theorem run_coinpaprika_empty (env : PaprikaEnv) (st : PipelineState)
    (h1 : is_source_running st.checkpoints "coinpaprika" = false)
    (h2 : fetch_top_coins env.att env.cfg = []) :
    run_coinpaprika env st =
      { st with
          checkpoints := complete_run "coinpaprika" 0 env.duration true none
            (start_run env.now "coinpaprika" st.checkpoints) } := by
  simp [run_coinpaprika, h1, h2]

theorem run_coingecko_empty (env : GeckoEnv) (st : PipelineState)
    (h1 : is_source_running st.checkpoints "coingecko" = false)
    (h2 : fetch_markets_data env.att env.cfg = []) :
    run_coingecko env st =
      { st with
          checkpoints := complete_run "coingecko" 0 env.duration true none
            (start_run env.now "coingecko" st.checkpoints) } := by
  simp [run_coingecko, h1, h2]

theorem run_csv_empty (env : CsvEnv) (st : PipelineState)
    (h1 : is_source_running st.checkpoints "csv" = false)
    (h2 : fetch_data env.file = []) :
    run_csv env st =
      { st with
          checkpoints := complete_run "csv" 0 env.duration true none
            (start_run env.now "csv" st.checkpoints) } := by
  simp [run_csv, h1, h2]

theorem get_start_complete_self (s : String) (cps : List Checkpoint)
    (now p : Nat) (d : ℚ) (b : Bool) (e : Option String) :
    (get_checkpoint (complete_run s p d b e (start_run now s cps)) s).map
      (fun c => (c.status, c.records_processed, c.duration_seconds, c.error_message)) =
      some (if b then "success" else "failure", p, some d, e) := by
  have hrun : ∃ c1 : Checkpoint, get_checkpoint (start_run now s cps) s = some c1 := by
    cases h : get_checkpoint cps s with
    | none => exact ⟨_, get_start_run_of_none now s cps h⟩
    | some c => exact ⟨_, get_start_run_of_some now s cps c h⟩
  obtain ⟨c1, hc1⟩ := hrun
  rw [get_complete_run_of_some s p d b e _ c1 hc1]
  rfl

/-- C7: for each of the three sources, a fetch that returns zero records
makes the run complete as a success: the checkpoint reaches status
"success" with records_processed 0, and no raw or canonical records are
written. -/
theorem C7_empty_fetch_success :
    (∀ (env : PaprikaEnv) (st : PipelineState),
      is_source_running st.checkpoints "coinpaprika" = false →
      fetch_top_coins env.att env.cfg = [] →
      (run_coinpaprika env st).raw_coinpaprika = st.raw_coinpaprika
      ∧ (run_coinpaprika env st).raw_coingecko = st.raw_coingecko
      ∧ (run_coinpaprika env st).raw_csv = st.raw_csv
      ∧ (run_coinpaprika env st).unified = st.unified
      ∧ (get_checkpoint (run_coinpaprika env st).checkpoints "coinpaprika").map
          (fun c => (c.status, c.records_processed, c.duration_seconds, c.error_message)) =
        some ("success", 0, some env.duration, none))
    ∧ (∀ (env : GeckoEnv) (st : PipelineState),
      is_source_running st.checkpoints "coingecko" = false →
      fetch_markets_data env.att env.cfg = [] →
      (run_coingecko env st).raw_coinpaprika = st.raw_coinpaprika
      ∧ (run_coingecko env st).raw_coingecko = st.raw_coingecko
      ∧ (run_coingecko env st).raw_csv = st.raw_csv
      ∧ (run_coingecko env st).unified = st.unified
      ∧ (get_checkpoint (run_coingecko env st).checkpoints "coingecko").map
          (fun c => (c.status, c.records_processed, c.duration_seconds, c.error_message)) =
        some ("success", 0, some env.duration, none))
    ∧ (∀ (env : CsvEnv) (st : PipelineState),
      is_source_running st.checkpoints "csv" = false →
      fetch_data env.file = [] →
      (run_csv env st).raw_coinpaprika = st.raw_coinpaprika
      ∧ (run_csv env st).raw_coingecko = st.raw_coingecko
      ∧ (run_csv env st).raw_csv = st.raw_csv
      ∧ (run_csv env st).unified = st.unified
      ∧ (get_checkpoint (run_csv env st).checkpoints "csv").map
          (fun c => (c.status, c.records_processed, c.duration_seconds, c.error_message)) =
        some ("success", 0, some env.duration, none)) := by
  refine ⟨?_, ?_, ?_⟩
  · intro env st h1 h2
    rw [run_coinpaprika_empty env st h1 h2]
    exact ⟨rfl, rfl, rfl, rfl,
      get_start_complete_self "coinpaprika" st.checkpoints env.now 0 env.duration true none⟩
  · intro env st h1 h2
    rw [run_coingecko_empty env st h1 h2]
    exact ⟨rfl, rfl, rfl, rfl,
      get_start_complete_self "coingecko" st.checkpoints env.now 0 env.duration true none⟩
  · intro env st h1 h2
    rw [run_csv_empty env st h1 h2]
    exact ⟨rfl, rfl, rfl, rfl,
      get_start_complete_self "csv" st.checkpoints env.now 0 env.duration true none⟩

/-- C7 witness: empty fetches on the empty database, for all three
sources (an API returning an empty list and a missing CSV file). -/
theorem C7_empty_fetch_success_witness :
    ((run_coinpaprika c7penv st0).raw_coinpaprika = st0.raw_coinpaprika
      ∧ (run_coinpaprika c7penv st0).raw_coingecko = st0.raw_coingecko
      ∧ (run_coinpaprika c7penv st0).raw_csv = st0.raw_csv
      ∧ (run_coinpaprika c7penv st0).unified = st0.unified
      ∧ (get_checkpoint (run_coinpaprika c7penv st0).checkpoints "coinpaprika").map
          (fun c => (c.status, c.records_processed, c.duration_seconds, c.error_message)) =
        some ("success", 0, some c7penv.duration, none))
    ∧ ((run_coingecko c7genv st0).raw_coinpaprika = st0.raw_coinpaprika
      ∧ (run_coingecko c7genv st0).raw_coingecko = st0.raw_coingecko
      ∧ (run_coingecko c7genv st0).raw_csv = st0.raw_csv
      ∧ (run_coingecko c7genv st0).unified = st0.unified
      ∧ (get_checkpoint (run_coingecko c7genv st0).checkpoints "coingecko").map
          (fun c => (c.status, c.records_processed, c.duration_seconds, c.error_message)) =
        some ("success", 0, some c7genv.duration, none))
    ∧ ((run_csv c7cenv st0).raw_coinpaprika = st0.raw_coinpaprika
      ∧ (run_csv c7cenv st0).raw_coingecko = st0.raw_coingecko
      ∧ (run_csv c7cenv st0).raw_csv = st0.raw_csv
      ∧ (run_csv c7cenv st0).unified = st0.unified
      ∧ (get_checkpoint (run_csv c7cenv st0).checkpoints "csv").map
          (fun c => (c.status, c.records_processed, c.duration_seconds, c.error_message)) =
        some ("success", 0, some c7cenv.duration, none)) :=
  ⟨C7_empty_fetch_success.1 c7penv st0 (by decide) (by rfl),
    C7_empty_fetch_success.2.1 c7genv st0 (by decide) (by rfl),
    C7_empty_fetch_success.2.2 c7cenv st0 (by decide) (by rfl)⟩

theorem transformBatch_eq_filterMap (f : α → Except String URow) (l : List α) :
    transformBatch f l = l.filterMap (fun a => (f a).toOption) := by
  induction l with
  | nil => rfl
  | cons a rest ih =>
    cases h : f a <;> simp [transformBatch, h, Except.toOption, ih]

theorem transform_batch_coinpaprika_eq (fails : RawCoinPaprikaSchema → Option String)
    (l : List RawCoinPaprikaSchema) :
    transform_batch_coinpaprika fails l =
      (l.filter (fun r => (fails r).isNone)).map transform_coinpaprika := by
  induction l with
  | nil => rfl
  | cons a rest ih =>
    rw [show transform_batch_coinpaprika fails rest =
        transformBatch (itemMapping transform_coinpaprika fails) rest from rfl] at ih
    cases h : fails a <;>
      simp [transform_batch_coinpaprika, transformBatch, itemMapping, h,
        List.filter_cons, ih]

/-- C6: the batch transform applies the per-item mapping independently:
its output is exactly the in-order image of the items whose mapping
succeeded, so one bad item never aborts the batch and the output is at
most as long as the input.  Concretely, fetching 3 raw records of which
exactly 1 fails its per-item transform yields 2 canonical records, and
the run completes with status "success" and records_processed 2. -/
theorem C6_transform_batch_tolerance (fails : RawCoinPaprikaSchema → Option String)
    (l : List RawCoinPaprikaSchema) :
    transform_batch_coinpaprika fails l =
      (l.filter (fun r => (fails r).isNone)).map transform_coinpaprika
    ∧ (transform_batch_coinpaprika fails l).length ≤ l.length
    ∧ transform_batch_coinpaprika c6fails [pr1, pr2, pr3] =
        [transform_coinpaprika pr1, transform_coinpaprika pr3]
    ∧ (get_checkpoint (run_coinpaprika c6env st0).checkpoints "coinpaprika").map
        (fun c => (c.status, c.records_processed)) = some ("success", 2)
    ∧ (run_coinpaprika c6env st0).unified.length = 2 := by
  refine ⟨transform_batch_coinpaprika_eq fails l, ?_, by rfl, by rfl, by rfl⟩
  rw [transform_batch_coinpaprika_eq fails l]
  calc ((l.filter (fun r => (fails r).isNone)).map transform_coinpaprika).length
      = (l.filter (fun r => (fails r).isNone)).length := List.length_map _ _
    _ ≤ l.length := List.length_filter_le _ _

theorem run_coinpaprika_loadRaw_fail (env : PaprikaEnv) (st : PipelineState) (e : String)
    (h1 : is_source_running st.checkpoints "coinpaprika" = false)
    (h2 : fetch_top_coins env.att env.cfg ≠ [])
    (h3 : env.loadRawFail = some e) :
    run_coinpaprika env st =
      { st with
          checkpoints := complete_run "coinpaprika" 0 env.duration false (some e)
            (start_run env.now "coinpaprika" st.checkpoints) } := by
  obtain ⟨a, l, hF⟩ : ∃ a l, fetch_top_coins env.att env.cfg = a :: l := by
    cases hF : fetch_top_coins env.att env.cfg with
    | nil => exact absurd hF h2
    | cons a l => exact ⟨a, l, rfl⟩
  simp [run_coinpaprika, h1, hF, load_raw, h3]

theorem run_coingecko_loadRaw_fail (env : GeckoEnv) (st : PipelineState) (e : String)
    (h1 : is_source_running st.checkpoints "coingecko" = false)
    (h2 : fetch_markets_data env.att env.cfg ≠ [])
    (h3 : env.loadRawFail = some e) :
    run_coingecko env st =
      { st with
          checkpoints := complete_run "coingecko" 0 env.duration false (some e)
            (start_run env.now "coingecko" st.checkpoints) } := by
  obtain ⟨a, l, hF⟩ : ∃ a l, fetch_markets_data env.att env.cfg = a :: l := by
    cases hF : fetch_markets_data env.att env.cfg with
    | nil => exact absurd hF h2
    | cons a l => exact ⟨a, l, rfl⟩
  simp [run_coingecko, h1, hF, load_raw, h3]

theorem run_csv_loadRaw_fail (env : CsvEnv) (st : PipelineState) (e : String)
    (h1 : is_source_running st.checkpoints "csv" = false)
    (h2 : fetch_data env.file ≠ [])
    (h3 : env.loadRawFail = some e) :
    run_csv env st =
      { st with
          checkpoints := complete_run "csv" 0 env.duration false (some e)
            (start_run env.now "csv" st.checkpoints) } := by
  obtain ⟨a, l, hF⟩ : ∃ a l, fetch_data env.file = a :: l := by
    cases hF : fetch_data env.file with
    | nil => exact absurd hF h2
    | cons a l => exact ⟨a, l, rfl⟩
  simp [run_csv, h1, hF, load_raw, h3]

theorem run_coinpaprika_loadUnified_fail (env : PaprikaEnv) (st : PipelineState) (e : String)
    (h1 : is_source_running st.checkpoints "coinpaprika" = false)
    (h2 : fetch_top_coins env.att env.cfg ≠ [])
    (h3 : env.loadRawFail = none)
    (h4 : env.loadUnifiedFail = some e)
    (h5 : transform_batch_coinpaprika env.transformFails (fetch_top_coins env.att env.cfg) ≠ []) :
    run_coinpaprika env st =
      { st with
          raw_coinpaprika := st.raw_coinpaprika ++ fetch_top_coins env.att env.cfg,
          checkpoints := complete_run "coinpaprika" 0 env.duration false (some e)
            (start_run env.now "coinpaprika" st.checkpoints) } := by
  obtain ⟨a, l, hF⟩ : ∃ a l, fetch_top_coins env.att env.cfg = a :: l := by
    cases hF : fetch_top_coins env.att env.cfg with
    | nil => exact absurd hF h2
    | cons a l => exact ⟨a, l, rfl⟩
  rw [hF] at h5
  obtain ⟨u, ul, hU⟩ : ∃ u ul,
      transform_batch_coinpaprika env.transformFails (a :: l) = u :: ul := by
    cases hU : transform_batch_coinpaprika env.transformFails (a :: l) with
    | nil => exact absurd hU h5
    | cons u ul => exact ⟨u, ul, rfl⟩
  simp [run_coinpaprika, h1, hF, load_raw, h3, hU, load_unified_data, h4]

/-- C9: when a run fails at a load step, the checkpoint is completed with
records_processed 0 regardless of what was persisted before the failure,
and the raw batch committed by the earlier load step stays in storage:
with the raw load succeeding and the canonical load failing, the raw
table keeps the appended batch, the unified table is untouched, and the
checkpoint reads "failure" with 0 records; with the raw load itself
failing, nothing is persisted and the checkpoint likewise reads
"failure" with 0 records. -/
theorem C9_failure_records_zero :
    (∀ (env : PaprikaEnv) (st : PipelineState) (e : String),
      is_source_running st.checkpoints "coinpaprika" = false →
      fetch_top_coins env.att env.cfg ≠ [] →
      env.loadRawFail = none →
      env.loadUnifiedFail = some e →
      transform_batch_coinpaprika env.transformFails (fetch_top_coins env.att env.cfg) ≠ [] →
      (run_coinpaprika env st).raw_coinpaprika =
        st.raw_coinpaprika ++ fetch_top_coins env.att env.cfg
      ∧ (run_coinpaprika env st).unified = st.unified
      ∧ (get_checkpoint (run_coinpaprika env st).checkpoints "coinpaprika").map
          (fun c => (c.status, c.records_processed, c.duration_seconds, c.error_message)) =
        some ("failure", 0, some env.duration, some e))
    ∧ (∀ (env : PaprikaEnv) (st : PipelineState) (e : String),
      is_source_running st.checkpoints "coinpaprika" = false →
      fetch_top_coins env.att env.cfg ≠ [] →
      env.loadRawFail = some e →
      (run_coinpaprika env st).raw_coinpaprika = st.raw_coinpaprika
      ∧ (run_coinpaprika env st).unified = st.unified
      ∧ (get_checkpoint (run_coinpaprika env st).checkpoints "coinpaprika").map
          (fun c => (c.status, c.records_processed, c.duration_seconds, c.error_message)) =
        some ("failure", 0, some env.duration, some e)) := by
  constructor
  · intro env st e h1 h2 h3 h4 h5
    rw [run_coinpaprika_loadUnified_fail env st e h1 h2 h3 h4 h5]
    exact ⟨rfl, rfl,
      get_start_complete_self "coinpaprika" st.checkpoints env.now 0 env.duration false (some e)⟩
  · intro env st e h1 h2 h3
    rw [run_coinpaprika_loadRaw_fail env st e h1 h2 h3]
    exact ⟨rfl, rfl,
      get_start_complete_self "coinpaprika" st.checkpoints env.now 0 env.duration false (some e)⟩

/-- C9 witness: on the empty database, a run whose canonical load fails
keeps the committed raw batch and reports failure with 0 records, and a
run whose raw load fails persists nothing and reports failure with 0
records. -/
theorem C9_failure_records_zero_witness :
    ((run_coinpaprika c9env st0).raw_coinpaprika =
        st0.raw_coinpaprika ++ fetch_top_coins c9env.att c9env.cfg
      ∧ (run_coinpaprika c9env st0).unified = st0.unified
      ∧ (get_checkpoint (run_coinpaprika c9env st0).checkpoints "coinpaprika").map
          (fun c => (c.status, c.records_processed, c.duration_seconds, c.error_message)) =
        some ("failure", 0, some c9env.duration, some "db down"))
    ∧ ((run_coinpaprika c3penv st0).raw_coinpaprika = st0.raw_coinpaprika
      ∧ (run_coinpaprika c3penv st0).unified = st0.unified
      ∧ (get_checkpoint (run_coinpaprika c3penv st0).checkpoints "coinpaprika").map
          (fun c => (c.status, c.records_processed, c.duration_seconds, c.error_message)) =
        some ("failure", 0, some c3penv.duration, some "paprika db down")) :=
  ⟨C9_failure_records_zero.1 c9env st0 "db down" (by decide) (by decide) (by rfl) (by rfl)
      (by decide),
    C9_failure_records_zero.2 c3penv st0 "paprika db down" (by decide) (by decide) (by rfl)⟩

theorem is_source_running_congr (cps cps' : List Checkpoint) (s : String)
    (h : get_checkpoint cps s = get_checkpoint cps' s) :
    is_source_running cps s = is_source_running cps' s := by
  simp [is_source_running, h]

theorem get_start_complete_other (s s' : String) (cps : List Checkpoint)
    (now p : Nat) (d : ℚ) (b : Bool) (e : Option String) (h : s' ≠ s) :
    get_checkpoint (complete_run s p d b e (start_run now s cps)) s' =
      get_checkpoint cps s' := by
  rw [get_complete_run_other s s' p d b e _ h, get_start_run_other now s s' cps h]

theorem get_start_complete_status_error (s : String) (cps : List Checkpoint)
    (now p : Nat) (d : ℚ) (b : Bool) (e : Option String) :
    (get_checkpoint (complete_run s p d b e (start_run now s cps)) s).map
      (fun c => (c.status, c.error_message)) =
      some (if b then "success" else "failure", e) := by
  have hrun : ∃ c1 : Checkpoint, get_checkpoint (start_run now s cps) s = some c1 := by
    cases h : get_checkpoint cps s with
    | none => exact ⟨_, get_start_run_of_none now s cps h⟩
    | some c => exact ⟨_, get_start_run_of_some now s cps c h⟩
  obtain ⟨c1, hc1⟩ := hrun
  rw [get_complete_run_of_some s p d b e _ c1 hc1]
  rfl

/-- C3: `run_all` runs the per-source runs in the fixed order
coinpaprika, coingecko, csv; an error inside one source's run is caught
there and recorded as that source's checkpoint failure, so even when
every source's body fails, each source still runs, each checkpoint
reaches "failure" with its own error message, and `run_all` returns a
state instead of raising. -/
theorem C3_run_all_isolation (env : ETLPipeline.AllEnv) (st : PipelineState)
    (ep eg ec : String)
    (hp : is_source_running st.checkpoints "coinpaprika" = false)
    (hg : is_source_running st.checkpoints "coingecko" = false)
    (hc : is_source_running st.checkpoints "csv" = false)
    (hpf : env.paprika.loadRawFail = some ep)
    (hgf : env.gecko.loadRawFail = some eg)
    (hcf : env.csv.loadRawFail = some ec)
    (hpn : fetch_top_coins env.paprika.att env.paprika.cfg ≠ [])
    (hgn : fetch_markets_data env.gecko.att env.gecko.cfg ≠ [])
    (hcn : fetch_data env.csv.file ≠ []) :
    run_all env st =
      run_csv env.csv (run_coingecko env.gecko (run_coinpaprika env.paprika st))
    ∧ (get_checkpoint (run_all env st).checkpoints "coinpaprika").map
        (fun c => (c.status, c.error_message)) = some ("failure", some ep)
    ∧ (get_checkpoint (run_all env st).checkpoints "coingecko").map
        (fun c => (c.status, c.error_message)) = some ("failure", some eg)
    ∧ (get_checkpoint (run_all env st).checkpoints "csv").map
        (fun c => (c.status, c.error_message)) = some ("failure", some ec) := by
  have e1 := run_coinpaprika_loadRaw_fail env.paprika st ep hp hpn hpf
  set cp1 := complete_run "coinpaprika" 0 env.paprika.duration false (some ep)
    (start_run env.paprika.now "coinpaprika" st.checkpoints) with hcp1
  have hg1 : is_source_running cp1 "coingecko" = false := by
    rw [is_source_running_congr cp1 st.checkpoints "coingecko"
      (get_start_complete_other _ _ _ _ _ _ _ _ (by decide))]
    exact hg
  have hc1 : is_source_running cp1 "csv" = false := by
    rw [is_source_running_congr cp1 st.checkpoints "csv"
      (get_start_complete_other _ _ _ _ _ _ _ _ (by decide))]
    exact hc
  have hst1 : (run_coinpaprika env.paprika st).checkpoints = cp1 := by rw [e1]
  have e2 := run_coingecko_loadRaw_fail env.gecko (run_coinpaprika env.paprika st) eg
    (by rw [hst1]; exact hg1) hgn hgf
  set cp2 := complete_run "coingecko" 0 env.gecko.duration false (some eg)
    (start_run env.gecko.now "coingecko" cp1) with hcp2
  have hst2 : (run_coingecko env.gecko (run_coinpaprika env.paprika st)).checkpoints = cp2 := by
    rw [e2, hst1]
  have hc2 : is_source_running cp2 "csv" = false := by
    rw [is_source_running_congr cp2 cp1 "csv"
      (get_start_complete_other _ _ _ _ _ _ _ _ (by decide))]
    exact hc1
  have e3 := run_csv_loadRaw_fail env.csv
    (run_coingecko env.gecko (run_coinpaprika env.paprika st)) ec
    (by rw [hst2]; exact hc2) hcn hcf
  have hall : (run_all env st).checkpoints =
      complete_run "csv" 0 env.csv.duration false (some ec)
        (start_run env.csv.now "csv" cp2) := by
    show (run_csv env.csv (run_coingecko env.gecko (run_coinpaprika env.paprika st))).checkpoints = _
    rw [e3, hst2]
  refine ⟨rfl, ?_, ?_, ?_⟩
  · rw [hall, get_start_complete_other _ _ _ _ _ _ _ _ (by decide), hcp2,
      get_start_complete_other _ _ _ _ _ _ _ _ (by decide), hcp1]
    exact get_start_complete_status_error "coinpaprika" st.checkpoints env.paprika.now 0
      env.paprika.duration false (some ep)
  · rw [hall, get_start_complete_other _ _ _ _ _ _ _ _ (by decide), hcp2]
    exact get_start_complete_status_error "coingecko" cp1 env.gecko.now 0
      env.gecko.duration false (some eg)
  · rw [hall]
    exact get_start_complete_status_error "csv" cp2 env.csv.now 0
      env.csv.duration false (some ec)

/-- C3 witness: all three sources hit a raw-storage failure on the empty
database; each checkpoint still reaches "failure" with its own message
and the composition order holds. -/
theorem C3_run_all_isolation_witness :
    run_all c3env st0 =
      run_csv c3env.csv (run_coingecko c3env.gecko (run_coinpaprika c3env.paprika st0))
    ∧ (get_checkpoint (run_all c3env st0).checkpoints "coinpaprika").map
        (fun c => (c.status, c.error_message)) = some ("failure", some "paprika db down")
    ∧ (get_checkpoint (run_all c3env st0).checkpoints "coingecko").map
        (fun c => (c.status, c.error_message)) = some ("failure", some "gecko db down")
    ∧ (get_checkpoint (run_all c3env st0).checkpoints "csv").map
        (fun c => (c.status, c.error_message)) = some ("failure", some "csv db down") :=
  C3_run_all_isolation c3env st0 "paprika db down" "gecko db down" "csv db down"
    (by decide) (by decide) (by decide) (by rfl) (by rfl) (by rfl)
    (by decide) (by decide) (by decide)

theorem makeRequestGo_error_of_no_ok (att : Nat → AttemptOutcome ρ) (cfg : RetryConfig)
    (h : ∀ i items, att i ≠ .ok items) :
    ∀ (fuel i : Nat) (d : ℚ), ∃ m, (makeRequestGo att cfg i fuel d).1 = .error m := by
  intro fuel
  induction fuel with
  | zero => exact fun i d => ⟨"Max retries exceeded", rfl⟩
  | succ fuel ih =>
    intro i d
    cases hi : att i with
    | ok items => exact absurd hi (h i items)
    | rateLimited =>
      obtain ⟨m, hm⟩ := ih (i + 1) (nextDelay cfg d)
      exact ⟨m, by simp [makeRequestGo, hi, hm]⟩
    | reqError e =>
      by_cases hf : fuel = 0
      · subst hf
        exact ⟨e, by simp [makeRequestGo, hi]⟩
      · obtain ⟨m, hm⟩ := ih (i + 1) (nextDelay cfg d)
        exact ⟨m, by simp [makeRequestGo, hi, hf, hm]⟩

theorem fetch_top_coins_of_error (att : Nat → AttemptOutcome RawCoinPaprikaSchema)
    (cfg : RetryConfig) (h : ∃ m, (makeRequest att cfg).1 = .error m) :
    fetch_top_coins att cfg = [] := by
  obtain ⟨m, hm⟩ := h
  simp [fetch_top_coins, hm]

theorem get_start_complete_status_records (s : String) (cps : List Checkpoint)
    (now p : Nat) (d : ℚ) (b : Bool) (e : Option String) :
    (get_checkpoint (complete_run s p d b e (start_run now s cps)) s).map
      (fun c => (c.status, c.records_processed)) =
      some (if b then "success" else "failure", p) := by
  have hrun : ∃ c1 : Checkpoint, get_checkpoint (start_run now s cps) s = some c1 := by
    cases h : get_checkpoint cps s with
    | none => exact ⟨_, get_start_run_of_none now s cps h⟩
    | some c => exact ⟨_, get_start_run_of_some now s cps c h⟩
  obtain ⟨c1, hc1⟩ := hrun
  rw [get_complete_run_of_some s p d b e _ c1 hc1]
  rfl

/-- C2 counterexample: with every HTTP attempt failing, `_make_request`
does raise its terminal failure, but `fetch_top_coins` catches it and
returns the empty list, so the Orchestrator records a checkpoint in
status "success" with 0 records — not "failure" as the claim states. -/
theorem C2_fetch_exhaustion_counterexample :
    (makeRequest c2att cfg3).1 = .error "boom"
    ∧ fetch_top_coins c2att cfg3 = []
    ∧ c2env.att = c2att ∧ c2env.cfg = cfg3
    ∧ (get_checkpoint (run_coinpaprika c2env st0).checkpoints "coinpaprika").map
        (fun c => (c.status, c.records_processed)) = some ("success", 0)
    ∧ ∀ c ∈ (run_coinpaprika c2env st0).checkpoints, c.status ≠ "failure" := by
  refine ⟨by rfl, by rfl, by rfl, by rfl, by rfl, by decide⟩

theorem fetch_markets_data_of_error (att : Nat → AttemptOutcome RawCoinGeckoSchema)
    (cfg : RetryConfig) (h : ∃ m, (makeRequest att cfg).1 = .error m) :
    fetch_markets_data att cfg = [] := by
  obtain ⟨m, hm⟩ := h
  simp [fetch_markets_data, hm]

/-- C2 amended: for every fetch wrapper a terminal fetch failure never
reaches the Orchestrator.  For the two HTTP fetchers, when no attempt
succeeds `_make_request` raises its terminal failure after exhausting
the attempts, but `fetch_top_coins` / `fetch_markets_data` catch every
exception and return the empty list; for the CSV source, a missing or
unreadable file likewise makes `fetch_data` return the empty list.  In
every case the Orchestrator records an empty-fetch checkpoint in status
"success" with records_processed 0, not a failure. -/
theorem C2_fetch_exhaustion_amended :
    (∀ (att : Nat → AttemptOutcome RawCoinPaprikaSchema) (cfg : RetryConfig)
        (env : PaprikaEnv) (st : PipelineState),
      (∀ i items, att i ≠ .ok items) →
      env.att = att → env.cfg = cfg →
      is_source_running st.checkpoints "coinpaprika" = false →
      (∃ m, (makeRequest att cfg).1 = .error m)
      ∧ fetch_top_coins att cfg = []
      ∧ (get_checkpoint (run_coinpaprika env st).checkpoints "coinpaprika").map
          (fun c => (c.status, c.records_processed)) = some ("success", 0))
    ∧ (∀ (att : Nat → AttemptOutcome RawCoinGeckoSchema) (cfg : RetryConfig)
        (env : GeckoEnv) (st : PipelineState),
      (∀ i items, att i ≠ .ok items) →
      env.att = att → env.cfg = cfg →
      is_source_running st.checkpoints "coingecko" = false →
      (∃ m, (makeRequest att cfg).1 = .error m)
      ∧ fetch_markets_data att cfg = []
      ∧ (get_checkpoint (run_coingecko env st).checkpoints "coingecko").map
          (fun c => (c.status, c.records_processed)) = some ("success", 0))
    ∧ (∀ (file : CsvFile) (env : CsvEnv) (st : PipelineState),
      (file = .missing ∨ ∃ m, file = .unreadable m) →
      env.file = file →
      is_source_running st.checkpoints "csv" = false →
      fetch_data file = []
      ∧ (get_checkpoint (run_csv env st).checkpoints "csv").map
          (fun c => (c.status, c.records_processed)) = some ("success", 0)) := by
  refine ⟨?_, ?_, ?_⟩
  · intro att cfg env st h he hc hr
    have herr : ∃ m, (makeRequest att cfg).1 = .error m :=
      makeRequestGo_error_of_no_ok att cfg h cfg.maxRetries 0 cfg.initialDelay
    have hempty : fetch_top_coins att cfg = [] := fetch_top_coins_of_error att cfg herr
    refine ⟨herr, hempty, ?_⟩
    rw [run_coinpaprika_empty env st hr (by rw [he, hc]; exact hempty)]
    exact get_start_complete_status_records "coinpaprika" st.checkpoints env.now 0
      env.duration true none
  · intro att cfg env st h he hc hr
    have herr : ∃ m, (makeRequest att cfg).1 = .error m :=
      makeRequestGo_error_of_no_ok att cfg h cfg.maxRetries 0 cfg.initialDelay
    have hempty : fetch_markets_data att cfg = [] :=
      fetch_markets_data_of_error att cfg herr
    refine ⟨herr, hempty, ?_⟩
    rw [run_coingecko_empty env st hr (by rw [he, hc]; exact hempty)]
    exact get_start_complete_status_records "coingecko" st.checkpoints env.now 0
      env.duration true none
  · intro file env st h he hr
    have hempty : fetch_data file = [] := by
      rcases h with rfl | ⟨m, rfl⟩ <;> rfl
    refine ⟨hempty, ?_⟩
    rw [run_csv_empty env st hr (by rw [he]; exact hempty)]
    exact get_start_complete_status_records "csv" st.checkpoints env.now 0
      env.duration true none

/-- C2 amended witness: the all-failures environments on the empty
database — every HTTP attempt a network error for each API fetcher, and
an unreadable file for the CSV source. -/
theorem C2_fetch_exhaustion_amended_witness :
    ((∃ m, (makeRequest c2att cfg3).1 = .error m)
      ∧ fetch_top_coins c2att cfg3 = []
      ∧ (get_checkpoint (run_coinpaprika c2env st0).checkpoints "coinpaprika").map
          (fun c => (c.status, c.records_processed)) = some ("success", 0))
    ∧ ((∃ m, (makeRequest c2gatt cfg3).1 = .error m)
      ∧ fetch_markets_data c2gatt cfg3 = []
      ∧ (get_checkpoint (run_coingecko c2genv st0).checkpoints "coingecko").map
          (fun c => (c.status, c.records_processed)) = some ("success", 0))
    ∧ (fetch_data (.unreadable "io error") = []
      ∧ (get_checkpoint (run_csv c2cenv st0).checkpoints "csv").map
          (fun c => (c.status, c.records_processed)) = some ("success", 0)) :=
  ⟨C2_fetch_exhaustion_amended.1 c2att cfg3 c2env st0
      (fun i items h => AttemptOutcome.noConfusion h) (by rfl) (by rfl) (by decide),
    C2_fetch_exhaustion_amended.2.1 c2gatt cfg3 c2genv st0
      (fun i items h => AttemptOutcome.noConfusion h) (by rfl) (by rfl) (by decide),
    C2_fetch_exhaustion_amended.2.2 (.unreadable "io error") c2cenv st0
      (Or.inr ⟨"io error", rfl⟩) (by rfl) (by decide)⟩

theorem makeRequestGo_delays_le (att : Nat → AttemptOutcome ρ) (cfg : RetryConfig) :
    ∀ (fuel i : Nat) (d : ℚ), d ≤ cfg.maxDelay →
      ∀ x ∈ (makeRequestGo att cfg i fuel d).2, x ≤ cfg.maxDelay := by
  intro fuel
  induction fuel with
  | zero =>
    intro i d _ x hx
    simp [makeRequestGo] at hx
  | succ fuel ih =>
    intro i d hd x hx
    cases hi : att i with
    | ok items => simp [makeRequestGo, hi] at hx
    | rateLimited =>
      simp only [makeRequestGo, hi, List.mem_cons] at hx
      rcases hx with rfl | hx'
      · exact hd
      · exact ih (i + 1) (nextDelay cfg d) (min_le_right _ _) x hx'
    | reqError e =>
      by_cases hf : fuel = 0
      · subst hf
        simp [makeRequestGo, hi] at hx
      · simp only [makeRequestGo, hi, hf, if_false, List.mem_cons] at hx
        rcases hx with rfl | hx'
        · exact hd
        · exact ih (i + 1) (nextDelay cfg d) (min_le_right _ _) x hx'

theorem min_double_pow (d maxD : ℚ) (hd : 0 ≤ d) (hm : d ≤ maxD) (k : Nat) :
    min (min (d * 2) maxD * 2 ^ k) maxD = min (d * 2 ^ (k + 1)) maxD := by
  have hmax0 : (0 : ℚ) ≤ maxD := le_trans hd hm
  have h2k : (0 : ℚ) ≤ 2 ^ k := by positivity
  have hmul : min (d * 2) maxD * 2 ^ k = min (d * 2 * 2 ^ k) (maxD * 2 ^ k) :=
    min_mul_of_nonneg _ _ h2k
  rw [hmul, min_assoc]
  have hmm : min (maxD * 2 ^ k) maxD = maxD := by
    apply min_eq_right
    calc maxD = maxD * 1 := by ring
      _ ≤ maxD * 2 ^ k := by
        apply mul_le_mul_of_nonneg_left _ hmax0
        exact one_le_pow₀ (by norm_num)
  rw [hmm]
  congr 1
  ring

theorem makeRequestGo_rateLimited_step (att : Nat → AttemptOutcome ρ)
    (cfg : RetryConfig) (i fuel : Nat) (d : ℚ) (hi : att i = .rateLimited) :
    makeRequestGo att cfg i (fuel + 1) d =
      ((makeRequestGo att cfg (i + 1) fuel (nextDelay cfg d)).1,
        d :: (makeRequestGo att cfg (i + 1) fuel (nextDelay cfg d)).2) := by
  simp [makeRequestGo, hi]

theorem makeRequestGo_reqError_step (att : Nat → AttemptOutcome ρ)
    (cfg : RetryConfig) (i fuel : Nat) (d : ℚ) (m : String)
    (hi : att i = .reqError m) (hf : fuel ≠ 0) :
    makeRequestGo att cfg i (fuel + 1) d =
      ((makeRequestGo att cfg (i + 1) fuel (nextDelay cfg d)).1,
        d :: (makeRequestGo att cfg (i + 1) fuel (nextDelay cfg d)).2) := by
  simp [makeRequestGo, hi, hf]

theorem makeRequestGo_delay_formula (att : Nat → AttemptOutcome ρ) (cfg : RetryConfig) :
    ∀ (fuel i : Nat) (d : ℚ), 0 ≤ d → d ≤ cfg.maxDelay →
      ∀ (k : Nat) (x : ℚ), (makeRequestGo att cfg i fuel d).2[k]? = some x →
        x = min (d * 2 ^ k) cfg.maxDelay := by
  intro fuel
  induction fuel with
  | zero =>
    intro i d _ _ k x hx
    simp [makeRequestGo] at hx
  | succ fuel ih =>
    intro i d hd0 hdm k x hx
    have hnext0 : 0 ≤ nextDelay cfg d :=
      le_min (by linarith) (le_trans hd0 hdm)
    have hnextm : nextDelay cfg d ≤ cfg.maxDelay := min_le_right _ _
    cases hi : att i with
    | ok items => simp [makeRequestGo, hi] at hx
    | rateLimited =>
      rw [makeRequestGo_rateLimited_step att cfg i fuel d hi] at hx
      cases k with
      | zero =>
        simp only [List.getElem?_cons_zero, Option.some_inj] at hx
        subst hx
        simp [min_eq_left hdm]
      | succ k =>
        rw [List.getElem?_cons_succ] at hx
        rw [ih (i + 1) (nextDelay cfg d) hnext0 hnextm k x hx]
        exact (min_double_pow d cfg.maxDelay hd0 hdm k).symm ▸ rfl
    | reqError e =>
      by_cases hf : fuel = 0
      · subst hf
        simp [makeRequestGo, hi] at hx
      · rw [makeRequestGo_reqError_step att cfg i fuel d e hi hf] at hx
        cases k with
        | zero =>
          simp only [List.getElem?_cons_zero, Option.some_inj] at hx
          subst hx
          simp [min_eq_left hdm]
        | succ k =>
          rw [List.getElem?_cons_succ] at hx
          rw [ih (i + 1) (nextDelay cfg d) hnext0 hnextm k x hx]
          exact (min_double_pow d cfg.maxDelay hd0 hdm k).symm ▸ rfl

theorem c8_concrete_schedule :
    (makeRequest c8att cfg9).2 = [1, 2, 4, 8, 16, 32, 60, 60, 60] := by
  have e1 : nextDelay cfg9 1 = 2 := by norm_num [nextDelay, cfg9]
  have e2 : nextDelay cfg9 2 = 4 := by norm_num [nextDelay, cfg9]
  have e3 : nextDelay cfg9 4 = 8 := by norm_num [nextDelay, cfg9]
  have e4 : nextDelay cfg9 8 = 16 := by norm_num [nextDelay, cfg9]
  have e5 : nextDelay cfg9 16 = 32 := by norm_num [nextDelay, cfg9]
  have e6 : nextDelay cfg9 32 = 60 := by norm_num [nextDelay, cfg9]
  have e7 : nextDelay cfg9 60 = 60 := by norm_num [nextDelay, cfg9]
  show (makeRequestGo c8att cfg9 0 (8 + 1) 1).2 = _
  rw [makeRequestGo_rateLimited_step c8att cfg9 0 8 1 rfl]
  show 1 :: (makeRequestGo c8att cfg9 1 (7 + 1) (nextDelay cfg9 1)).2 = _
  rw [e1, makeRequestGo_rateLimited_step c8att cfg9 1 7 2 rfl]
  show 1 :: 2 :: (makeRequestGo c8att cfg9 2 (6 + 1) (nextDelay cfg9 2)).2 = _
  rw [e2, makeRequestGo_rateLimited_step c8att cfg9 2 6 4 rfl]
  show 1 :: 2 :: 4 :: (makeRequestGo c8att cfg9 3 (5 + 1) (nextDelay cfg9 4)).2 = _
  rw [e3, makeRequestGo_rateLimited_step c8att cfg9 3 5 8 rfl]
  show 1 :: 2 :: 4 :: 8 :: (makeRequestGo c8att cfg9 4 (4 + 1) (nextDelay cfg9 8)).2 = _
  rw [e4, makeRequestGo_rateLimited_step c8att cfg9 4 4 16 rfl]
  show 1 :: 2 :: 4 :: 8 :: 16 ::
      (makeRequestGo c8att cfg9 5 (3 + 1) (nextDelay cfg9 16)).2 = _
  rw [e5, makeRequestGo_rateLimited_step c8att cfg9 5 3 32 rfl]
  show 1 :: 2 :: 4 :: 8 :: 16 :: 32 ::
      (makeRequestGo c8att cfg9 6 (2 + 1) (nextDelay cfg9 32)).2 = _
  rw [e6, makeRequestGo_rateLimited_step c8att cfg9 6 2 60 rfl]
  show 1 :: 2 :: 4 :: 8 :: 16 :: 32 :: 60 ::
      (makeRequestGo c8att cfg9 7 (1 + 1) (nextDelay cfg9 60)).2 = _
  rw [e7, makeRequestGo_rateLimited_step c8att cfg9 7 1 60 rfl]
  show 1 :: 2 :: 4 :: 8 :: 16 :: 32 :: 60 :: 60 ::
      (makeRequestGo c8att cfg9 8 (0 + 1) (nextDelay cfg9 60)).2 = _
  rw [e7, makeRequestGo_rateLimited_step c8att cfg9 8 0 60 rfl]
  rfl

/-- C8: in the shared retry loop of `_make_request`, the backoff delay
slept before the (k+1)-th retried attempt is
min(initial_retry_delay * 2^k, max_retry_delay); no recorded delay ever
exceeds max_retry_delay; a 429 response takes exactly the same
sleep-double-retry path as a transient request failure, consuming one of
the bounded attempts; and with initial delay 1 and cap 60 the successive
delays are 1, 2, 4, 8, 16, 32, 60, 60, 60, …. -/
theorem C8_backoff_schedule (cfg : RetryConfig) (att : Nat → AttemptOutcome ρ)
    (h0 : 0 ≤ cfg.initialDelay) (h1 : cfg.initialDelay ≤ cfg.maxDelay) :
    (∀ (k : Nat) (x : ℚ), (makeRequest att cfg).2[k]? = some x →
      x = min (cfg.initialDelay * 2 ^ k) cfg.maxDelay)
    ∧ (∀ x ∈ (makeRequest att cfg).2, x ≤ cfg.maxDelay)
    ∧ (∀ (i fuel : Nat) (d : ℚ) (m : String),
        att i = .rateLimited ∨ (att i = .reqError m ∧ fuel ≠ 0) →
        makeRequestGo att cfg i (fuel + 1) d =
          ((makeRequestGo att cfg (i + 1) fuel (nextDelay cfg d)).1,
            d :: (makeRequestGo att cfg (i + 1) fuel (nextDelay cfg d)).2))
    ∧ (makeRequest c8att cfg9).2 = [1, 2, 4, 8, 16, 32, 60, 60, 60] := by
  refine ⟨?_, ?_, ?_, c8_concrete_schedule⟩
  · exact makeRequestGo_delay_formula att cfg cfg.maxRetries 0 cfg.initialDelay h0 h1
  · exact makeRequestGo_delays_le att cfg cfg.maxRetries 0 cfg.initialDelay h1
  · intro i fuel d m h
    rcases h with hi | ⟨hi, hf⟩
    · exact makeRequestGo_rateLimited_step att cfg i fuel d hi
    · exact makeRequestGo_reqError_step att cfg i fuel d m hi hf

/-- C8 witness: the schedule properties at the default configuration
(max_retries 3, initial delay 1, cap 60) with all-rate-limited
attempts. -/
theorem C8_backoff_schedule_witness :
    (∀ (k : Nat) (x : ℚ), (makeRequest c8att cfg3).2[k]? = some x →
      x = min (cfg3.initialDelay * 2 ^ k) cfg3.maxDelay)
    ∧ (∀ x ∈ (makeRequest c8att cfg3).2, x ≤ cfg3.maxDelay)
    ∧ (∀ (i fuel : Nat) (d : ℚ) (m : String),
        c8att i = .rateLimited ∨ (c8att i = .reqError m ∧ fuel ≠ 0) →
        makeRequestGo c8att cfg3 i (fuel + 1) d =
          ((makeRequestGo c8att cfg3 (i + 1) fuel (nextDelay cfg3 d)).1,
            d :: (makeRequestGo c8att cfg3 (i + 1) fuel (nextDelay cfg3 d)).2))
    ∧ (makeRequest c8att cfg9).2 = [1, 2, 4, 8, 16, 32, 60, 60, 60] :=
  C8_backoff_schedule cfg3 c8att (by decide) (by decide)
